import Mathlib

/-!
Shallow embedding of the scene-transform core of the eren_next engine
(`src/eren_ts_2d/src/transform.ts` and `src/eren_ts_2d/src/nodes/sprite_node.ts`).

The TypeScript code uses `gl-matrix` `mat3`/`vec2` over IEEE doubles; we model
the numbers as real numbers.  `gl-matrix` stores matrices column-major and
`mat3.multiply(out, a, b)` computes the mathematical product `a * b` under the
column-vector convention, so we represent a `mat3` as a structure of nine real
entries `mij` (row `i`, column `j`, mathematical convention) and translate each
`gl-matrix` constructor (`fromTranslation`, `fromRotation`, `fromScaling`,
`create`) entry by entry.  The mutating TypeScript classes become functional
state: every mutating method returns the updated value(s).
-/

noncomputable section

namespace Eren2D

/-- A `gl-matrix` `vec2`: a pair of reals. -/
@[ext] structure Vec2 where
  x : ℝ
  y : ℝ


namespace Vec2

/-- Models `vec2.create()`: the zero vector. -/
def create : Vec2 := ⟨0, 0⟩

/-- Models `vec2.negate(out, v)`. -/
def negate (v : Vec2) : Vec2 := ⟨-v.x, -v.y⟩

/-- Models `vec2.sub(out, a, b)`: componentwise difference. -/
def sub (a b : Vec2) : Vec2 := ⟨a.x - b.x, a.y - b.y⟩

end Vec2

/-- A `gl-matrix` `mat3`: nine real entries, `mij` = row `i`, column `j` in the
mathematical (column-vector) convention.  `gl-matrix` stores the array
column-major, so its element `out[3*c + r]` is our `m r c`. -/
@[ext] structure Mat3 where
  m00 : ℝ
  m01 : ℝ
  m02 : ℝ
  m10 : ℝ
  m11 : ℝ
  m12 : ℝ
  m20 : ℝ
  m21 : ℝ
  m22 : ℝ


namespace Mat3

/-- Models `mat3.create()`: the identity matrix. -/
def identity : Mat3 := ⟨1, 0, 0, 0, 1, 0, 0, 0, 1⟩

/-- Models `mat3.multiply(out, a, b)`: the mathematical product `a * b`
(column-vector convention; `gl-matrix` computes exactly this on the
column-major arrays). -/
def mul (a b : Mat3) : Mat3 :=
  ⟨a.m00 * b.m00 + a.m01 * b.m10 + a.m02 * b.m20,
   a.m00 * b.m01 + a.m01 * b.m11 + a.m02 * b.m21,
   a.m00 * b.m02 + a.m01 * b.m12 + a.m02 * b.m22,
   a.m10 * b.m00 + a.m11 * b.m10 + a.m12 * b.m20,
   a.m10 * b.m01 + a.m11 * b.m11 + a.m12 * b.m21,
   a.m10 * b.m02 + a.m11 * b.m12 + a.m12 * b.m22,
   a.m20 * b.m00 + a.m21 * b.m10 + a.m22 * b.m20,
   a.m20 * b.m01 + a.m21 * b.m11 + a.m22 * b.m21,
   a.m20 * b.m02 + a.m21 * b.m12 + a.m22 * b.m22⟩

/-- Models `mat3.fromTranslation(out, v)`: affine translation by `v`. -/
def fromTranslation (v : Vec2) : Mat3 :=
  ⟨1, 0, v.x, 0, 1, v.y, 0, 0, 1⟩

/-- Models `mat3.fromRotation(out, rad)`: counter-clockwise rotation by `rad` radians
(`Math.cos`/`Math.sin` modelled as `Real.cos`/`Real.sin`). -/
def fromRotation (rad : ℝ) : Mat3 :=
  ⟨Real.cos rad, -Real.sin rad, 0, Real.sin rad, Real.cos rad, 0, 0, 0, 1⟩

/-- Models `mat3.fromScaling(out, v)`: axis-aligned scaling by `v`. -/
def fromScaling (v : Vec2) : Mat3 :=
  ⟨v.x, 0, 0, 0, v.y, 0, 0, 0, 1⟩

/-- Models `vec2.transformMat3(out, a, m)` on a point (homogeneous coordinate 1):
how a `mat3` is applied to a 2D point. -/
def applyPoint (m : Mat3) (v : Vec2) : Vec2 :=
  ⟨m.m00 * v.x + m.m01 * v.y + m.m02, m.m10 * v.x + m.m11 * v.y + m.m12⟩

end Mat3

/-- The `Transform` class of `transform.ts`: local spatial state plus a dirty
flag.  Private fields `_position`, `_pivot`, `_scale`, `_rotation`, `_alpha`,
`_isDirty` become structure fields; the getters are the projections. -/
structure Transform where
  position : Vec2
  pivot : Vec2
  scale : Vec2
  rotation : ℝ
  alpha : ℝ
  isDirty : Bool

namespace Transform

/-- The `Transform` constructor: `vec2.create()` for position, pivot and
scale (so scale starts at the ZERO vector), rotation `0`, alpha `1`,
dirty flag `true`. -/
def new : Transform :=
  { position := Vec2.create
    pivot := Vec2.create
    scale := Vec2.create
    rotation := 0
    alpha := 1
    isDirty := true }

/-- Models `set position(value)`: store the value and unconditionally set the dirty
flag. -/
def setPosition (t : Transform) (v : Vec2) : Transform :=
  { t with position := v, isDirty := true }

/-- Models `set pivot(value)`. -/
def setPivot (t : Transform) (v : Vec2) : Transform :=
  { t with pivot := v, isDirty := true }

/-- Models `set scale(value)`. -/
def setScale (t : Transform) (v : Vec2) : Transform :=
  { t with scale := v, isDirty := true }

/-- Models `set rotation(value)`. -/
def setRotation (t : Transform) (v : ℝ) : Transform :=
  { t with rotation := v, isDirty := true }

/-- Models `set alpha(value)`. -/
def setAlpha (t : Transform) (v : ℝ) : Transform :=
  { t with alpha := v, isDirty := true }

/-- Models `clearDirty()`. -/
def clearDirty (t : Transform) : Transform :=
  { t with isDirty := false }

end Transform

/-- The `GlobalTransform` class of `transform.ts`: accumulated matrix, alpha
and dirty flag.  The reusable scratch matrices `_t1 … _offset` are a pure
allocation optimization (each is fully overwritten before being read on every
`update` call, and `gl-matrix` reads its inputs before writing `out`), so they
carry no state across calls and are not modelled. -/
structure GlobalTransform where
  matrix : Mat3
  alpha : ℝ
  isDirty : Bool

/-- The `pivot_transform` matrix built inside `GlobalTransform.update`:
`T(pivot) * R(rot) * S(scale) * T(-pivot)`, associated exactly as the
code's `mat3.multiply` sequence associates it. -/
def pivotTransformOf (pivot : Vec2) (rot : ℝ) (scale : Vec2) : Mat3 :=
  (((Mat3.fromTranslation pivot).mul (Mat3.fromRotation rot)).mul
      (Mat3.fromScaling scale)).mul
    (Mat3.fromTranslation (Vec2.negate pivot))

namespace GlobalTransform

/-- The `GlobalTransform` constructor: identity matrix (`mat3.create()`),
alpha `1`, dirty flag `false`. -/
def new : GlobalTransform :=
  { matrix := Mat3.identity
    alpha := 1
    isDirty := false }

/-- Models `update(parent, local)`.  Returns the updated `GlobalTransform` together
with the (possibly dirty-cleared) local `Transform`, since the TypeScript
method mutates both `this` and `local`.  On the skip path
(`!parent._isDirty && !local.isDirty()`) both come back unchanged. -/
def update (g : GlobalTransform) (parent : GlobalTransform) (l : Transform) :
    GlobalTransform × Transform :=
  if !parent.isDirty && !l.isDirty then (g, l)
  else
    let pivotTransform := pivotTransformOf l.pivot l.rotation l.scale
    let translation := Mat3.fromTranslation (Vec2.sub l.position l.pivot)
    let m := (parent.matrix.mul translation).mul pivotTransform
    ({ matrix := m, alpha := parent.alpha * l.alpha, isDirty := true },
     l.clearDirty)

/-- Models `finalize()`: clear this GlobalTransform's own dirty flag. -/
def finalize (g : GlobalTransform) : GlobalTransform :=
  { g with isDirty := false }

end GlobalTransform

/-- A `RenderRequest` as pushed by `SpriteNode.update`:
`{ matrix, alpha, spriteAssetId }`. -/
structure RenderRequest (SA : Type) where
  matrix : Mat3
  alpha : ℝ
  spriteAssetId : SA

/-- The slice of `GameState` that `SpriteNode.update` touches: the shared
render-request queue. -/
structure GameState (SA : Type) where
  renderRequests : List (RenderRequest SA)

/-- The `SpriteNode` class of `sprite_node.ts`: a local transform, its own
`GlobalTransform`, and a sprite asset id. -/
structure SpriteNode (SA : Type) where
  transform : Transform
  globalTransform : GlobalTransform
  assetId : SA

namespace SpriteNode

/-- Models `SpriteNode.update(gameState, parentGlobalTransform)`: (1) update the
node's own `GlobalTransform` from the parent and the node's transform;
(2) push one render request carrying the just-updated matrix, alpha and the
node's asset id; (3) `finalize()` the node's `GlobalTransform`.  The request
is built from the pre-`finalize` value `r.1` (step 2 precedes step 3 in the
code; `finalize` only clears the dirty flag). -/
def update {SA : Type} (n : SpriteNode SA) (gs : GameState SA)
    (parent : GlobalTransform) : SpriteNode SA × GameState SA :=
  let r := n.globalTransform.update parent n.transform
  let gs1 : GameState SA :=
    ⟨gs.renderRequests ++ [⟨r.1.matrix, r.1.alpha, n.assetId⟩]⟩
  (⟨r.2, r.1.finalize, n.assetId⟩, gs1)

end SpriteNode

/-- Top-down update of a chain of nodes (each node a `GlobalTransform`
paired with its local `Transform`): the first node updates from `parent`,
and each later node updates from the just-updated `GlobalTransform` of the
node before it — the scheduler's parent-before-child traversal restricted
to a single path of the tree. -/
def chainUpdate (parent : GlobalTransform) :
    List (GlobalTransform × Transform) → List (GlobalTransform × Transform)
  | [] => []
  | (g, l) :: rest =>
      let r := g.update parent l
      r :: chainUpdate r.1 rest

/-- A local `Transform` whose spatial fields are the spec's defaults:
position `(0,0)`, pivot `(0,0)`, scale `(1,1)`, rotation `0`, alpha `1`. -/
def identityLocal (t : Transform) : Prop :=
  t.position = Vec2.create ∧ t.pivot = Vec2.create ∧
    t.scale = ⟨1, 1⟩ ∧ t.rotation = 0 ∧ t.alpha = 1

end Eren2D

namespace Eren2D

/-! ### Helper lemmas -/

/-- If the local transform is dirty, `update` takes the recompute path:
the local flag is cleared, the GlobalTransform's flag is set, and
`finalize` clears it again. -/
theorem update_dirty_local_flags (g parent : GlobalTransform) (l : Transform)
    (h : l.isDirty = true) :
    (g.update parent l).2.isDirty = false ∧ (g.update parent l).1.isDirty = true ∧
      ((g.update parent l).1.finalize).isDirty = false := by
  simp [GlobalTransform.update, h, Transform.clearDirty, GlobalTransform.finalize]

/-! ### Claim theorems -/

/-- C1: whenever the parent GlobalTransform or the local Transform is dirty,
`update(parent, local)` recomputes `matrix` as
`parent.matrix · T(position - pivot) · (T(pivot) · R(rotation) · S(scale) · T(-pivot))`
(column-vector convention) and `alpha` as `parent.alpha · local.alpha`,
from the local transform's current field values. -/
theorem update_recompute_matrix_alpha (g parent : GlobalTransform) (l : Transform)
    (h : (parent.isDirty || l.isDirty) = true) :
    (g.update parent l).1.matrix =
      (parent.matrix.mul (Mat3.fromTranslation (Vec2.sub l.position l.pivot))).mul
        (pivotTransformOf l.pivot l.rotation l.scale) ∧
    (g.update parent l).1.alpha = parent.alpha * l.alpha := by
  have hc : (!parent.isDirty && !l.isDirty) = false := by
    cases hp : parent.isDirty <;> cases hl : l.isDirty <;> simp_all
  simp [GlobalTransform.update, hc]

/-- Witness for C1 at a concrete input: a fresh parent (clean) and a fresh
local transform (dirty), so the hypothesis holds and `update` recomputes. -/
theorem update_recompute_matrix_alpha_witness :
    (GlobalTransform.new.isDirty || Transform.new.isDirty) = true ∧
    ((GlobalTransform.new.update GlobalTransform.new Transform.new).1.matrix =
      (GlobalTransform.new.matrix.mul
          (Mat3.fromTranslation
            (Vec2.sub Transform.new.position Transform.new.pivot))).mul
        (pivotTransformOf Transform.new.pivot Transform.new.rotation
          Transform.new.scale) ∧
    (GlobalTransform.new.update GlobalTransform.new Transform.new).1.alpha =
      GlobalTransform.new.alpha * Transform.new.alpha) :=
  ⟨rfl, update_recompute_matrix_alpha GlobalTransform.new GlobalTransform.new
    Transform.new rfl⟩

/-- C2: `update` skips (returns with `this` and `local` completely
unchanged — matrix, alpha and both dirty flags) exactly when neither the
parent nor the local transform is dirty; otherwise it takes the recompute
path, observable as the GlobalTransform's flag being set and the local flag
being cleared.  Since the skip path changes nothing, a repeated `update`
with unchanged inputs leaves `matrix` and `alpha` bit-for-bit unchanged. -/
theorem update_skip_iff (g parent : GlobalTransform) (l : Transform) :
    ((!parent.isDirty && !l.isDirty) = true → g.update parent l = (g, l)) ∧
    ((!parent.isDirty && !l.isDirty) = false →
      (g.update parent l).1.isDirty = true ∧
        (g.update parent l).2.isDirty = false) := by
  constructor
  · intro h
    simp [GlobalTransform.update, h]
  · intro h
    simp [GlobalTransform.update, h, Transform.clearDirty]

/-- Witness for C2 at a concrete input: clean parent, dirty-cleared local,
so the skip condition holds and the call returns both unchanged. -/
theorem update_skip_iff_witness :
    (!GlobalTransform.new.isDirty && !(Transform.new.clearDirty).isDirty) = true ∧
      GlobalTransform.new.update GlobalTransform.new Transform.new.clearDirty =
        (GlobalTransform.new, Transform.new.clearDirty) :=
  ⟨rfl, (update_skip_iff GlobalTransform.new GlobalTransform.new
    Transform.new.clearDirty).1 rfl⟩

/-- C3: each of the five setters stores the new value, unconditionally sets
the dirty flag (also when the new value equals the old one — the statement
quantifies over all `v`, including `v` equal to the current field), and
leaves every other field unchanged. -/
theorem setter_sets_field_and_dirty (t : Transform) (v : Vec2) (r a : ℝ) :
    ((t.setPosition v).position = v ∧ (t.setPosition v).isDirty = true ∧
      (t.setPosition v).pivot = t.pivot ∧ (t.setPosition v).scale = t.scale ∧
      (t.setPosition v).rotation = t.rotation ∧
      (t.setPosition v).alpha = t.alpha) ∧
    ((t.setPivot v).pivot = v ∧ (t.setPivot v).isDirty = true ∧
      (t.setPivot v).position = t.position ∧ (t.setPivot v).scale = t.scale ∧
      (t.setPivot v).rotation = t.rotation ∧ (t.setPivot v).alpha = t.alpha) ∧
    ((t.setScale v).scale = v ∧ (t.setScale v).isDirty = true ∧
      (t.setScale v).position = t.position ∧ (t.setScale v).pivot = t.pivot ∧
      (t.setScale v).rotation = t.rotation ∧ (t.setScale v).alpha = t.alpha) ∧
    ((t.setRotation r).rotation = r ∧ (t.setRotation r).isDirty = true ∧
      (t.setRotation r).position = t.position ∧
      (t.setRotation r).pivot = t.pivot ∧
      (t.setRotation r).scale = t.scale ∧ (t.setRotation r).alpha = t.alpha) ∧
    ((t.setAlpha a).alpha = a ∧ (t.setAlpha a).isDirty = true ∧
      (t.setAlpha a).position = t.position ∧ (t.setAlpha a).pivot = t.pivot ∧
      (t.setAlpha a).scale = t.scale ∧
      (t.setAlpha a).rotation = t.rotation) :=
  ⟨⟨rfl, rfl, rfl, rfl, rfl, rfl⟩, ⟨rfl, rfl, rfl, rfl, rfl, rfl⟩,
    ⟨rfl, rfl, rfl, rfl, rfl, rfl⟩, ⟨rfl, rfl, rfl, rfl, rfl, rfl⟩,
    ⟨rfl, rfl, rfl, rfl, rfl, rfl⟩⟩

/-- C10: a fresh `GlobalTransform` has the identity matrix, alpha `1` and a
clear dirty flag (usable as the implicit identity parent of the traversal
root); a fresh `Transform` is dirty; hence the first `update` on a freshly
constructed node never satisfies the skip condition — for ANY parent — and
takes the full recompute path (flag set on the GlobalTransform, cleared on
the local). -/
theorem initial_state_first_update_recomputes (g parent : GlobalTransform) :
    GlobalTransform.new.matrix = Mat3.identity ∧
    GlobalTransform.new.alpha = 1 ∧
    GlobalTransform.new.isDirty = false ∧
    Transform.new.isDirty = true ∧
    (!parent.isDirty && !Transform.new.isDirty) = false ∧
    (g.update parent Transform.new).1.isDirty = true ∧
    (g.update parent Transform.new).2.isDirty = false := by
  refine ⟨rfl, rfl, rfl, rfl, by simp [Transform.new], ?_, ?_⟩
  · exact (update_dirty_local_flags g parent Transform.new rfl).2.1
  · exact (update_dirty_local_flags g parent Transform.new rfl).1

end Eren2D

namespace Eren2D

/-- Helper: on the non-skip path, the recomputed matrix. -/
theorem update_not_skip_matrix (g parent : GlobalTransform) (l : Transform)
    (hc : (!parent.isDirty && !l.isDirty) = false) :
    (g.update parent l).1.matrix =
      (parent.matrix.mul (Mat3.fromTranslation (Vec2.sub l.position l.pivot))).mul
        (pivotTransformOf l.pivot l.rotation l.scale) := by
  simp [GlobalTransform.update, hc]

/-- Helper: on the non-skip path, the recomputed alpha. -/
theorem update_not_skip_alpha (g parent : GlobalTransform) (l : Transform)
    (hc : (!parent.isDirty && !l.isDirty) = false) :
    (g.update parent l).1.alpha = parent.alpha * l.alpha := by
  simp [GlobalTransform.update, hc]

/-- Helper: right multiplication by `mat3.create()` is the identity. -/
theorem Mat3.mul_identity (m : Mat3) : m.mul Mat3.identity = m := by
  ext <;> simp [Mat3.mul, Mat3.identity]

/-- Helper: translating by the zero vector is the identity matrix. -/
theorem fromTranslation_create : Mat3.fromTranslation Vec2.create = Mat3.identity := by
  ext <;> simp [Mat3.fromTranslation, Mat3.identity, Vec2.create]

/-- Helper: the pivot transform of the spec-default local values
(pivot `(0,0)`, rotation `0`, scale `(1,1)`) is the identity matrix. -/
theorem identity_pivotTransform :
    pivotTransformOf Vec2.create 0 ⟨1, 1⟩ = Mat3.identity := by
  ext <;>
    simp [pivotTransformOf, Mat3.fromTranslation, Mat3.fromRotation,
      Mat3.fromScaling, Mat3.mul, Mat3.identity, Vec2.negate, Vec2.create,
      Real.cos_zero, Real.sin_zero]

/-- Helper: a recomputing `update` against a spec-default local transform
copies the parent's matrix and alpha. -/
theorem update_identityLocal (g parent : GlobalTransform) (l : Transform)
    (hid : identityLocal l) (hd : l.isDirty = true) :
    (g.update parent l).1.matrix = parent.matrix ∧
      (g.update parent l).1.alpha = parent.alpha := by
  obtain ⟨hpos, hpiv, hscl, hrot, ha⟩ := hid
  have hc : (!parent.isDirty && !l.isDirty) = false := by simp [hd]
  constructor
  · rw [update_not_skip_matrix g parent l hc, hpos, hpiv, hscl, hrot]
    have h1 : Vec2.sub Vec2.create Vec2.create = Vec2.create := by
      simp [Vec2.sub, Vec2.create]
    rw [h1, fromTranslation_create, identity_pivotTransform,
      Mat3.mul_identity, Mat3.mul_identity]
  · rw [update_not_skip_alpha g parent l hc, ha, mul_one]

/-- C4: dirty-flag lifecycle, for each field setter independently: a setter
marks the local transform dirty; the subsequent `update` (which therefore
recomputes) clears the local flag and sets the GlobalTransform's flag;
`finalize` clears the latter; and running the setter → update → finalize
cycle again from the resulting state ends with both flags in the same state
as after the first cycle. -/
theorem dirty_flag_lifecycle (g parent : GlobalTransform) (l : Transform)
    (v : Vec2) (r a : ℝ) :
    ((l.setPosition v).isDirty = true ∧
      (g.update parent (l.setPosition v)).2.isDirty = false ∧
      (g.update parent (l.setPosition v)).1.isDirty = true ∧
      ((g.update parent (l.setPosition v)).1.finalize).isDirty = false) ∧
    ((l.setPivot v).isDirty = true ∧
      (g.update parent (l.setPivot v)).2.isDirty = false ∧
      (g.update parent (l.setPivot v)).1.isDirty = true ∧
      ((g.update parent (l.setPivot v)).1.finalize).isDirty = false) ∧
    ((l.setScale v).isDirty = true ∧
      (g.update parent (l.setScale v)).2.isDirty = false ∧
      (g.update parent (l.setScale v)).1.isDirty = true ∧
      ((g.update parent (l.setScale v)).1.finalize).isDirty = false) ∧
    ((l.setRotation r).isDirty = true ∧
      (g.update parent (l.setRotation r)).2.isDirty = false ∧
      (g.update parent (l.setRotation r)).1.isDirty = true ∧
      ((g.update parent (l.setRotation r)).1.finalize).isDirty = false) ∧
    ((l.setAlpha a).isDirty = true ∧
      (g.update parent (l.setAlpha a)).2.isDirty = false ∧
      (g.update parent (l.setAlpha a)).1.isDirty = true ∧
      ((g.update parent (l.setAlpha a)).1.finalize).isDirty = false) ∧
    ((((g.update parent (l.setPosition v)).1.finalize).update parent
        ((g.update parent (l.setPosition v)).2.setPosition v)).2.isDirty =
      (g.update parent (l.setPosition v)).2.isDirty ∧
      (((((g.update parent (l.setPosition v)).1.finalize).update parent
          ((g.update parent (l.setPosition v)).2.setPosition v)).1.finalize).isDirty =
        ((g.update parent (l.setPosition v)).1.finalize).isDirty)) := by
  have h1 := update_dirty_local_flags g parent (l.setPosition v) rfl
  have h2 := update_dirty_local_flags g parent (l.setPivot v) rfl
  have h3 := update_dirty_local_flags g parent (l.setScale v) rfl
  have h4 := update_dirty_local_flags g parent (l.setRotation r) rfl
  have h5 := update_dirty_local_flags g parent (l.setAlpha a) rfl
  have h6 := update_dirty_local_flags ((g.update parent (l.setPosition v)).1.finalize)
    parent ((g.update parent (l.setPosition v)).2.setPosition v) rfl
  exact ⟨⟨rfl, h1.1, h1.2.1, h1.2.2⟩, ⟨rfl, h2.1, h2.2.1, h2.2.2⟩,
    ⟨rfl, h3.1, h3.2.1, h3.2.2⟩, ⟨rfl, h4.1, h4.2.1, h4.2.2⟩,
    ⟨rfl, h5.1, h5.2.1, h5.2.2⟩,
    h6.1.trans h1.1.symm, h6.2.2.trans h1.2.2.symm⟩

/-- C5: one `SpriteNode.update(gameState, parent)` call (1) updates the
node's own GlobalTransform from the parent and the node's transform,
(2) appends exactly one render request carrying that just-updated matrix,
the accumulated alpha and the node's asset id — growing the queue by one
and leaving every previously queued request at its position — and
(3) finalizes the node's own GlobalTransform. -/
theorem sprite_node_update_queue (SA : Type) (n : SpriteNode SA)
    (gs : GameState SA) (parent : GlobalTransform) :
    (n.update gs parent).2.renderRequests =
      gs.renderRequests ++
        [⟨(n.globalTransform.update parent n.transform).1.matrix,
          (n.globalTransform.update parent n.transform).1.alpha, n.assetId⟩] ∧
    (n.update gs parent).2.renderRequests.length =
      gs.renderRequests.length + 1 ∧
    (n.update gs parent).1.globalTransform =
      (n.globalTransform.update parent n.transform).1.finalize ∧
    (n.update gs parent).1.transform =
      (n.globalTransform.update parent n.transform).2 ∧
    (n.update gs parent).1.assetId = n.assetId ∧
    ∀ i, i < gs.renderRequests.length →
      (n.update gs parent).2.renderRequests[i]? = gs.renderRequests[i]? := by
  refine ⟨rfl, by simp [SpriteNode.update], rfl, rfl, rfl, ?_⟩
  intro i hi
  show (gs.renderRequests ++ _)[i]? = _
  rw [List.getElem?_append_left hi]

/-- A sample sprite node for the C5 witness. -/
def sampleNode : SpriteNode ℕ := ⟨Transform.new, GlobalTransform.new, 7⟩

/-- A sample game state with one already-queued request, for the C5 witness. -/
def sampleState : GameState ℕ := ⟨[⟨Mat3.identity, 1, 5⟩]⟩

/-- Witness for C5 at a concrete input: the previously queued request at
index `0` is still at index `0` after the update. -/
theorem sprite_node_update_queue_witness :
    0 < sampleState.renderRequests.length ∧
      (sampleNode.update sampleState GlobalTransform.new).2.renderRequests[0]? =
        sampleState.renderRequests[0]? :=
  ⟨Nat.zero_lt_one,
    (sprite_node_update_queue ℕ sampleNode sampleState GlobalTransform.new).2.2.2.2.2
      0 Nat.zero_lt_one⟩

end Eren2D

namespace Eren2D

/-- C6: in a chain of any depth whose local transforms all carry the spec
defaults (position 0, pivot 0, scale 1, rotation 0, alpha 1) and are dirty
(so every `update` recomputes), top-down updating makes every
GlobalTransform's matrix equal its parent's matrix and its alpha equal its
parent's alpha. -/
theorem identity_chain (root : GlobalTransform)
    (nodes : List (GlobalTransform × Transform))
    (h : ∀ p ∈ nodes, identityLocal p.2 ∧ p.2.isDirty = true) :
    List.Chain (fun a b : GlobalTransform => b.matrix = a.matrix ∧ b.alpha = a.alpha)
      root ((chainUpdate root nodes).map Prod.fst) := by
  induction nodes generalizing root with
  | nil => exact List.Chain.nil
  | cons hd tl ih =>
      obtain ⟨g, l⟩ := hd
      obtain ⟨hid, hdirty⟩ := h (g, l) (by simp)
      refine List.Chain.cons ?_ (ih (g.update root l).1 ?_)
      · exact update_identityLocal g root l hid hdirty
      · intro p hp
        exact h p (List.mem_cons_of_mem _ hp)

/-- A one-node chain whose local transform carries the spec defaults,
for the C6 witness. -/
def sampleIdentityChain : List (GlobalTransform × Transform) :=
  [(GlobalTransform.new,
    { position := Vec2.create, pivot := Vec2.create, scale := ⟨1, 1⟩,
      rotation := 0, alpha := 1, isDirty := true })]

/-- Witness for C6 at a concrete input: a depth-one chain of spec-default
locals below a fresh root. -/
theorem identity_chain_witness :
    (∀ p ∈ sampleIdentityChain, identityLocal p.2 ∧ p.2.isDirty = true) ∧
      List.Chain
        (fun a b : GlobalTransform => b.matrix = a.matrix ∧ b.alpha = a.alpha)
        GlobalTransform.new
        ((chainUpdate GlobalTransform.new sampleIdentityChain).map Prod.fst) := by
  have hyp : ∀ p ∈ sampleIdentityChain, identityLocal p.2 ∧ p.2.isDirty = true := by
    intro p hp
    simp only [sampleIdentityChain, List.mem_singleton] at hp
    subst hp
    exact ⟨⟨rfl, rfl, rfl, rfl, rfl⟩, rfl⟩
  exact ⟨hyp, identity_chain GlobalTransform.new sampleIdentityChain hyp⟩

/-- C7: the pivot transform `T(pivot) · R(rot) · S(scale) · T(-pivot)` built
by `GlobalTransform.update` fixes the pivot point, for every pivot, rotation
angle and scale factor. -/
theorem pivot_invariance (pv scl : Vec2) (rot : ℝ) :
    (pivotTransformOf pv rot scl).applyPoint pv = pv := by
  obtain ⟨px, py⟩ := pv
  obtain ⟨sx, sy⟩ := scl
  simp only [pivotTransformOf, Mat3.fromTranslation, Mat3.fromRotation,
    Mat3.fromScaling, Mat3.mul, Mat3.applyPoint, Vec2.negate, Vec2.mk.injEq]
  constructor <;> ring

/-- Helper for C8: the last element of a top-down chain update accumulates
the root's alpha times the product of the locals' alphas (all locals dirty,
so every update recomputes). -/
theorem chainUpdate_getLast_alpha (nodes : List (GlobalTransform × Transform)) :
    ∀ (root : GlobalTransform) (x : GlobalTransform × Transform),
      (∀ p ∈ nodes, p.2.isDirty = true) →
      (chainUpdate root nodes).getLast? = some x →
      x.1.alpha = root.alpha * (nodes.map (fun p => p.2.alpha)).prod := by
  induction nodes with
  | nil =>
      intro root x h hx
      simp [chainUpdate] at hx
  | cons hd tl ih =>
      intro root x h hx
      obtain ⟨g, l⟩ := hd
      have hld : l.isDirty = true := h (g, l) (by simp)
      have hc : (!root.isDirty && !l.isDirty) = false := by simp [hld]
      have halpha : (g.update root l).1.alpha = root.alpha * l.alpha :=
        update_not_skip_alpha g root l hc
      cases tl with
      | nil =>
          simp only [chainUpdate, List.getLast?_singleton, Option.some.injEq] at hx
          subst hx
          simp [halpha]
      | cons hd2 tl2 =>
          obtain ⟨g2, l2⟩ := hd2
          have hx' : (chainUpdate (g.update root l).1 ((g2, l2) :: tl2)).getLast? =
              some x := by
            rw [← hx]
            show _ = (_ :: _ :: _).getLast?
            rw [List.getLast?_cons_cons]
            rfl
          have := ih (g.update root l).1 x
            (fun p hp => h p (List.mem_cons_of_mem _ hp)) hx'
          rw [this, halpha]
          simp only [List.map_cons, List.prod_cons]
          ring

/-- C8: for a chain of `N ≥ 1` nodes with local alphas `a₁ … aₙ` (all dirty,
so every update recomputes) rooted at a parent GlobalTransform with alpha
`1`, after the top-down chain update the leaf's accumulated alpha is the
product `a₁ · a₂ · … · aₙ`. -/
theorem alpha_chain_product (root : GlobalTransform)
    (nodes : List (GlobalTransform × Transform))
    (x : GlobalTransform × Transform)
    (h1 : root.alpha = 1)
    (h2 : ∀ p ∈ nodes, p.2.isDirty = true)
    (hx : (chainUpdate root nodes).getLast? = some x) :
    x.1.alpha = (nodes.map (fun p => p.2.alpha)).prod := by
  rw [chainUpdate_getLast_alpha nodes root x h2 hx, h1, one_mul]

/-- A one-node chain for the C8 witness. -/
def sampleAlphaChain : List (GlobalTransform × Transform) :=
  [(GlobalTransform.new, Transform.new)]

/-- The leaf produced by updating `sampleAlphaChain` below a fresh root. -/
def sampleAlphaLast : GlobalTransform × Transform :=
  GlobalTransform.new.update GlobalTransform.new Transform.new

/-- Witness for C8 at a concrete input: a depth-one chain below a fresh
root of alpha `1`. -/
theorem alpha_chain_product_witness :
    GlobalTransform.new.alpha = 1 ∧
    (∀ p ∈ sampleAlphaChain, p.2.isDirty = true) ∧
    (chainUpdate GlobalTransform.new sampleAlphaChain).getLast? =
      some sampleAlphaLast ∧
    sampleAlphaLast.1.alpha =
      (sampleAlphaChain.map (fun p => p.2.alpha)).prod := by
  have h2 : ∀ p ∈ sampleAlphaChain, p.2.isDirty = true := by
    intro p hp
    simp only [sampleAlphaChain, List.mem_singleton] at hp
    subst hp
    rfl
  have hx : (chainUpdate GlobalTransform.new sampleAlphaChain).getLast? =
      some sampleAlphaLast := rfl
  exact ⟨rfl, h2, hx,
    alpha_chain_product GlobalTransform.new sampleAlphaChain sampleAlphaLast
      rfl h2 hx⟩

/-- C9: a fresh `Transform` has position `(0,0)`, pivot `(0,0)`, rotation
`0`, alpha `1`, a set dirty flag, and scale `(0,0)` — the ZERO vector, since
the constructor uses `vec2.create()` for scale — so updating any
GlobalTransform from a default-constructed Transform under any parent yields
a matrix whose linear (rotation/scale) 2×2 block is zero, which maps every
point to the one same point. -/
theorem default_transform_zero_scale_collapses (g parent : GlobalTransform) :
    Transform.new.position = Vec2.create ∧
    Transform.new.pivot = Vec2.create ∧
    Transform.new.rotation = 0 ∧
    Transform.new.alpha = 1 ∧
    Transform.new.isDirty = true ∧
    Transform.new.scale = (⟨0, 0⟩ : Vec2) ∧
    ((g.update parent Transform.new).1.matrix.m00 = 0 ∧
      (g.update parent Transform.new).1.matrix.m01 = 0 ∧
      (g.update parent Transform.new).1.matrix.m10 = 0 ∧
      (g.update parent Transform.new).1.matrix.m11 = 0) ∧
    ∀ v w : Vec2,
      (g.update parent Transform.new).1.matrix.applyPoint v =
        (g.update parent Transform.new).1.matrix.applyPoint w := by
  have hc : (!parent.isDirty && !Transform.new.isDirty) = false := by
    simp [Transform.new]
  have key : (g.update parent Transform.new).1.matrix =
      ⟨0, 0, parent.matrix.m02, 0, 0, parent.matrix.m12,
        0, 0, parent.matrix.m22⟩ := by
    rw [update_not_skip_matrix g parent Transform.new hc]
    ext <;>
      simp [Transform.new, Vec2.create, Vec2.sub, Vec2.negate, pivotTransformOf,
        Mat3.fromTranslation, Mat3.fromRotation, Mat3.fromScaling, Mat3.mul,
        Real.cos_zero, Real.sin_zero]
  refine ⟨rfl, rfl, rfl, rfl, rfl, rfl, ?_, ?_⟩
  · rw [key]
    exact ⟨rfl, rfl, rfl, rfl⟩
  · intro v w
    rw [key]
    simp [Mat3.applyPoint]

end Eren2D
